import Mathlib

/-!
Shallow embedding of the `ascii_drone` repository core
(`src/handDetection.js`, `src/keyOverlay.js`, `src/audioEngine.js`)
together with theorems settling the specification claims.

Machine numbers of the JavaScript source are modelled as exact
rationals (audio engine, whose arithmetic is all decimal literals)
or reals (gesture geometry, which uses `Math.sqrt` / `Math.atan2`).
Side effects on the external audio graph are modelled as emitted
command lists.
-/

open scoped Classical

/-- JavaScript `Math.atan2(y, x)` over the reals (signed zeros are not
modelled; `atan2(0, 0) = 0` as in JS). -/
noncomputable def jsAtan2 (y x : ℝ) : ℝ :=
  if 0 < x then Real.arctan (y / x)
  else if x < 0 then
    (if 0 ≤ y then Real.arctan (y / x) + Real.pi else Real.arctan (y / x) - Real.pi)
  else if 0 < y then Real.pi / 2
  else if y < 0 then -(Real.pi / 2)
  else 0

/-- Truncation toward zero, as used by the JavaScript `%` operator. -/
noncomputable def jsTrunc (x : ℝ) : ℤ :=
  if 0 ≤ x then ⌊x⌋ else ⌈x⌉

/-- JavaScript remainder `x % y` (truncated division; only ever applied
with a nonzero modulus in this development). -/
noncomputable def jsRem (x y : ℝ) : ℝ :=
  x - y * (jsTrunc (x / y) : ℝ)

namespace AudioEngine

/-- Engine lifecycle states (`AudioEngine.STATE`). -/
inductive EngineStatus
  | uninitialized
  | initializing
  | initialized
  | error
  deriving DecidableEq, Repr

/-- A JavaScript value passed to a numeric setter: either a finite
number, or one of the invalid shapes (`NaN`, an infinite value, or a
non-numeric value) that `_validateNumber` rejects. -/
inductive JsNum
  | val (x : ℚ)
  | nan
  | infinite
  | nonNumber
  deriving DecidableEq, Repr

/-- Whether the value passes the
`typeof value === 'number' && !isNaN(value) && isFinite(value)` test. -/
def JsNum.isValidNumber : JsNum → Bool
  | .val _ => true
  | _ => false

/-- `AudioEngine._validateNumber(value, fallback)`. -/
def validateNumber (value : JsNum) (fallback : ℚ) : ℚ :=
  match value with
  | .val x => x
  | _ => fallback

/-- `AudioEngine._clamp(value, min, max)` = `Math.max(min, Math.min(max, value))`. -/
def clamp (value lo hi : ℚ) : ℚ :=
  max lo (min hi value)

/-- One mutation of the external Tone.js audio graph.  The engine's
side effects on audio nodes are recorded as emitted commands. -/
inductive AudioCmd
  | rampRoundedGain (g : ℚ)
  | rampSaturatedGain (g : ℚ)
  | rampFilterFreq (f : ℚ)
  | rampFilterQ (q : ℚ)
  | setChorusDepth (d : ℚ)
  | setSpread (cents : ℚ)
  | rampChorusFreq (f : ℚ)
  | setLFODepth (d : ℚ)
  | rampStereoWidth (w : ℚ)
  | glideVoiceFreqs (fs : List ℚ)
  deriving DecidableEq, Repr

/-- `AudioEngine.ROOT_FREQUENCIES` (octave-3 roots, Hz). -/
def ROOT_FREQUENCIES : String → Option ℚ
  | "C" => some 130.81
  | "C#" => some 138.59
  | "Db" => some 138.59
  | "D" => some 146.83
  | "D#" => some 155.56
  | "Eb" => some 155.56
  | "E" => some 164.81
  | "F" => some 174.61
  | "F#" => some 185.00
  | "Gb" => some 185.00
  | "G" => some 196.00
  | "G#" => some 207.65
  | "Ab" => some 207.65
  | "A" => some 220.00
  | "A#" => some 233.08
  | "Bb" => some 233.08
  | "B" => some 246.94
  | _ => none

/-- `AudioEngine.MAJOR_INTERVALS = [1, 1.5, 2, 2.52]`. -/
def MAJOR_INTERVALS : List ℚ := [1, 1.5, 2, 2.52]

/-- `AudioEngine.MINOR_INTERVALS = [1, 1.5, 2, 2.4]`. -/
def MINOR_INTERVALS : List ℚ := [1, 1.5, 2, 2.4]

/-- The engine's logical state (the fields of the `AudioEngine`
class that the parameter/key operations read or write). -/
structure EngineState where
  status : EngineStatus
  pendingIntensity : Option ℚ
  pendingWidth : Option ℚ
  lastValidIntensity : ℚ
  lastValidWidth : ℚ
  currentKey : String
  isMinor : Bool
  baseFreqs : List ℚ
  deriving DecidableEq, Repr

/-- The state set up by the `AudioEngine` constructor. -/
def initialEngine : EngineState :=
  { status := .uninitialized
    pendingIntensity := none
    pendingWidth := none
    lastValidIntensity := 0
    lastValidWidth := 0
    currentKey := "C"
    isMinor := false
    baseFreqs := [130.81, 196.00, 261.63, 329.63] }

/-- `this.isInitialized` getter. -/
def isInitialized (s : EngineState) : Bool :=
  s.status = EngineStatus.initialized

/-- The audio-graph mutations performed by the initialized branch of
`setIntensity` for clamped input `i`. -/
def intensityCmds (i : ℚ) : List AudioCmd :=
  [ .rampRoundedGain (1 - i)
  , .rampSaturatedGain i
  , .rampFilterFreq (300 + i * 4700)
  , .rampFilterQ (1 + i * 2)
  , .setChorusDepth (0.3 + i * 0.5) ]

/-- The audio-graph mutations performed by the initialized branch of
`setWidth` for clamped input `w`. -/
def widthCmds (w : ℚ) : List AudioCmd :=
  [ .setSpread (10 + w * 40)
  , .rampChorusFreq (1 + w * 5)
  , .setLFODepth (2 + w * 13)
  , .rampStereoWidth (0.3 + w * 0.7) ]

/-- `AudioEngine.setIntensity(intensityAmount)`: validate, remember the
last valid value, queue if uninitialized, otherwise clamp and apply. -/
def setIntensity (s : EngineState) (intensityAmount : JsNum) : EngineState × List AudioCmd :=
  let validIntensity := validateNumber intensityAmount s.lastValidIntensity
  let s := { s with lastValidIntensity := validIntensity }
  if ¬ isInitialized s then
    ({ s with pendingIntensity := some validIntensity }, [])
  else
    let i := clamp validIntensity 0 1
    (s, intensityCmds i)

/-- `AudioEngine.setWidth(widthAmount)`. -/
def setWidth (s : EngineState) (widthAmount : JsNum) : EngineState × List AudioCmd :=
  let validWidth := validateNumber widthAmount s.lastValidWidth
  let s := { s with lastValidWidth := validWidth }
  if ¬ isInitialized s then
    ({ s with pendingWidth := some validWidth }, [])
  else
    let w := clamp validWidth 0 1
    (s, widthCmds w)

/-- The tail of a successful `AudioEngine._doInit()`: the state is set
to `INITIALIZED`, then any queued width and intensity values are
replayed (width first, as in the source) and the queues are cleared. -/
def finishInit (s : EngineState) : EngineState × List AudioCmd :=
  let s := { s with status := .initialized }
  let (s1, cw) :=
    match s.pendingWidth with
    | some w =>
      let r := setWidth s (.val w)
      ({ r.1 with pendingWidth := none }, r.2)
    | none => (s, ([] : List AudioCmd))
  let (s2, ci) :=
    match s1.pendingIntensity with
    | some i =>
      let r := setIntensity s1 (.val i)
      ({ r.1 with pendingIntensity := none }, r.2)
    | none => (s1, ([] : List AudioCmd))
  (s2, cw ++ ci)

/-- JavaScript `keyName.endsWith('m')`, specialised to the
single-character suffix used by `setKey`. -/
def endsWithM (s : String) : Bool :=
  s.data.getLast? == some 'm'

/-- JavaScript `keyName.slice(0, -1)`: the string without its final
character. -/
def dropLastChar (s : String) : String :=
  String.mk s.data.dropLast

/-- `AudioEngine.setKey(keyName)`.  Returns the new state, the emitted
audio commands, and whether the unknown-key warning branch was hit. -/
def setKey (s : EngineState) (keyName : String) : EngineState × List AudioCmd × Bool :=
  let isMinorKey := endsWithM keyName
  let rootName := if isMinorKey then dropLastChar keyName else keyName
  match ROOT_FREQUENCIES rootName with
  | none => (s, [], true)
  | some rootFreq =>
    let intervals := if isMinorKey then MINOR_INTERVALS else MAJOR_INTERVALS
    let newFreqs := intervals.map (fun r => rootFreq * r)
    let s := { s with currentKey := keyName, isMinor := isMinorKey, baseFreqs := newFreqs }
    if ¬ isInitialized s then
      (s, [], false)
    else
      (s, [.glideVoiceFreqs newFreqs], false)

end AudioEngine

namespace HandDetector

/-- One normalized 2D hand landmark (MediaPipe coordinates in `[0,1]`,
modelled over the reals). -/
structure Pt where
  x : ℝ
  y : ℝ

/-- The 21 landmarks of one detected hand. -/
def Landmarks := Fin 21 → Pt

/-- `HandDetector.PINCH_THRESHOLD = 0.05`. -/
noncomputable def PINCH_THRESHOLD : ℝ := 0.05

/-- `HandDetector.HOLD_DURATION_MS = 450` (milliseconds). -/
noncomputable def HOLD_DURATION_MS : ℝ := 450

/-- The intermediate `angle` of `calculateHandRotation` after the two
normalization branches (`+90°` rotation folded into `(-180, 180]`). -/
noncomputable def normalizedAngle (lm : Landmarks) : ℝ :=
  let wrist := lm 0
  let middleFingerTip := lm 12
  let dx := middleFingerTip.x - wrist.x
  let dy := middleFingerTip.y - wrist.y
  let angle := jsAtan2 dy dx * (180 / Real.pi) + 90
  let angle1 := if angle < -180 then angle + 360 else angle
  if angle1 > 180 then angle1 - 360 else angle1

/-- `HandDetector.calculateHandRotation(landmarks)`. -/
noncomputable def calculateHandRotation (lm : Landmarks) : ℝ :=
  max (-90) (min 90 (normalizedAngle lm))

/-- The `fingerTips` index array of `isFist`. -/
def fingerTips : List (Fin 21) := [4, 8, 12, 16, 20]

/-- The `fingerMCPs` index array of `isFist`. -/
def fingerMCPs : List (Fin 21) := [2, 5, 9, 13, 17]

/-- The `foldedFingers` counter of `isFist`: how many fingertips lie
below (larger `y` than) their MCP joint. -/
noncomputable def foldedFingers (lm : Landmarks) : ℕ :=
  (List.zip fingerTips fingerMCPs).foldl
    (fun n p => if (lm p.1).y > (lm p.2).y then n + 1 else n) 0

/-- `HandDetector.isFist(landmarks)`: at least 4 of 5 fingers folded. -/
def isFist (lm : Landmarks) : Prop :=
  foldedFingers lm ≥ 4

/-- The thumb-tip/index-tip distance tested by `isPinch`. -/
noncomputable def pinchDistance (lm : Landmarks) : ℝ :=
  let dx := (lm 4).x - (lm 8).x
  let dy := (lm 4).y - (lm 8).y
  Real.sqrt (dx * dx + dy * dy)

/-- `HandDetector.isPinch(landmarks)`: tips close together AND not a fist. -/
def isPinch (lm : Landmarks) : Prop :=
  pinchDistance lm < PINCH_THRESHOLD ∧ ¬ isFist lm

/-- `HandDetector.getPinchPosition(landmarks)`: thumb/index midpoint. -/
noncomputable def getPinchPosition (lm : Landmarks) : Pt :=
  ⟨((lm 4).x + (lm 8).x) / 2, ((lm 4).y + (lm 8).y) / 2⟩

/-- JavaScript `label.toLowerCase()` over the character list (the
labels used are plain ASCII). -/
def toLowerString (s : String) : String :=
  String.mk (s.data.map Char.toLower)

/-- One entry of a MediaPipe results frame: a handedness label
(`'Left'` / `'Right'`) with its 21 landmarks. -/
structure HandInput where
  label : String
  landmarks : Landmarks

/-- The mutable fields of the `HandDetector` instance that the gesture
state machine reads and writes. -/
structure DetectorState where
  hand1Rotation : ℝ
  hand2Rotation : ℝ
  lastLeftRotation : ℝ
  lastRightRotation : ℝ
  pinchActive : Bool
  pinchPosition : Option Pt
  pinchHand : Option String
  fistHoldStartLeft : Option ℝ
  fistHoldStartRight : Option ℝ
  pinchHoldStart : Option ℝ
  fistActiveLeft : Bool
  fistActiveRight : Bool
  pinchActiveConfirmed : Bool

/-- The state set up by the `HandDetector` constructor. -/
noncomputable def initialDetector : DetectorState :=
  { hand1Rotation := 0
    hand2Rotation := 0
    lastLeftRotation := 0
    lastRightRotation := 0
    pinchActive := false
    pinchPosition := none
    pinchHand := none
    fistHoldStartLeft := none
    fistHoldStartRight := none
    pinchHoldStart := none
    fistActiveLeft := false
    fistActiveRight := false
    pinchActiveConfirmed := false }

/-- The per-frame locals accumulated by the `forEach` loop of
`getHandRotationAngle`, together with the `hand1Rotation` /
`hand2Rotation` fields it mutates along the way. -/
structure ScanResult where
  leftFistDetected : Bool
  rightFistDetected : Bool
  pinchDetected : Bool
  pinchData : Option (Pt × String)
  hand1Rotation : ℝ
  hand2Rotation : ℝ

/-- One iteration of the `forEach` loop of `getHandRotationAngle`:
a pinching hand overwrites the frame's pinch candidate; a non-pinching
fist marks its side detected and stores its raw rotation. -/
noncomputable def scanHand (acc : ScanResult) (h : HandInput) : ScanResult :=
  let rotation := calculateHandRotation h.landmarks
  let acc1 :=
    if isPinch h.landmarks then
      { acc with pinchDetected := true
                 pinchData := some (getPinchPosition h.landmarks, toLowerString h.label) }
    else acc
  if isFist h.landmarks ∧ ¬ isPinch h.landmarks then
    if h.label = "Left" then
      { acc1 with leftFistDetected := true, hand1Rotation := rotation }
    else
      { acc1 with rightFistDetected := true, hand2Rotation := rotation }
  else acc1

/-- The whole `forEach` loop over this frame's detected hands. -/
noncomputable def scanHands (s : DetectorState) (hands : List HandInput) : ScanResult :=
  hands.foldl scanHand
    { leftFistDetected := false
      rightFistDetected := false
      pinchDetected := false
      pinchData := none
      hand1Rotation := s.hand1Rotation
      hand2Rotation := s.hand2Rotation }

/-- The left-fist hold-to-activate block of `getHandRotationAngle`. -/
noncomputable def processLeftFist (s : DetectorState) (now : ℝ)
    (leftFistDetected : Bool) : DetectorState :=
  if leftFistDetected then
    let s1 :=
      match s.fistHoldStartLeft with
      | none => { s with fistHoldStartLeft := some now }
      | some t0 =>
        if s.fistActiveLeft = false ∧ HOLD_DURATION_MS ≤ now - t0 then
          { s with fistActiveLeft := true }
        else s
    if s1.fistActiveLeft then { s1 with lastLeftRotation := s1.hand1Rotation } else s1
  else
    { s with fistHoldStartLeft := none, fistActiveLeft := false }

/-- The right-fist hold-to-activate block of `getHandRotationAngle`. -/
noncomputable def processRightFist (s : DetectorState) (now : ℝ)
    (rightFistDetected : Bool) : DetectorState :=
  if rightFistDetected then
    let s1 :=
      match s.fistHoldStartRight with
      | none => { s with fistHoldStartRight := some now }
      | some t0 =>
        if s.fistActiveRight = false ∧ HOLD_DURATION_MS ≤ now - t0 then
          { s with fistActiveRight := true }
        else s
    if s1.fistActiveRight then { s1 with lastRightRotation := s1.hand2Rotation } else s1
  else
    { s with fistHoldStartRight := none, fistActiveRight := false }

/-- The pinch hold-to-activate block of `getHandRotationAngle`. -/
noncomputable def processPinch (s : DetectorState) (now : ℝ)
    (pinchDetected : Bool) (pinchData : Option (Pt × String)) : DetectorState :=
  if pinchDetected then
    let s1 :=
      match s.pinchHoldStart with
      | none => { s with pinchHoldStart := some now, pinchActiveConfirmed := false }
      | some t0 =>
        if s.pinchActiveConfirmed = false ∧ HOLD_DURATION_MS ≤ now - t0 then
          { s with pinchActiveConfirmed := true }
        else s
    if s1.pinchActiveConfirmed then
      { s1 with pinchActive := true
                pinchPosition := pinchData.map Prod.fst
                pinchHand := pinchData.map Prod.snd }
    else
      { s1 with pinchActive := false, pinchPosition := none, pinchHand := none }
  else
    { s with pinchHoldStart := none
             pinchActiveConfirmed := false
             pinchActive := false
             pinchPosition := none
             pinchHand := none }

/-- `HandDetector.getHandRotationAngle(results)` at wall-clock time
`now`: scan the hands, then run the three hold-to-activate blocks.
The returned `{left, right}` pair equals the final
`lastLeftRotation` / `lastRightRotation` fields. -/
noncomputable def getHandRotationAngle (s : DetectorState) (now : ℝ)
    (hands : List HandInput) : DetectorState :=
  let scan := scanHands s hands
  let s0 := { s with hand1Rotation := scan.hand1Rotation, hand2Rotation := scan.hand2Rotation }
  let s1 := processLeftFist s0 now scan.leftFistDetected
  let s2 := processRightFist s1 now scan.rightFistDetected
  processPinch s2 now scan.pinchDetected scan.pinchData

/-- The gesture-relevant part of `HandDetector.onResults`: run
`getHandRotationAngle` and copy the returned rotations back into
`hand1Rotation` / `hand2Rotation` (which are then what the Gesture
Event callback publishes as `leftRotation` / `rightRotation`). -/
noncomputable def step (s : DetectorState) (now : ℝ) (hands : List HandInput) : DetectorState :=
  let s1 := getHandRotationAngle s now hands
  { s1 with hand1Rotation := s1.lastLeftRotation, hand2Rotation := s1.lastRightRotation }

end HandDetector

namespace KeyOverlay

/-- `KeyOverlay.MAJOR_KEYS` (circle of fifths, clockwise from top). -/
def MAJOR_KEYS : List String :=
  ["C", "G", "D", "A", "E", "B", "F#", "Db", "Ab", "Eb", "Bb", "F"]

/-- `KeyOverlay.MINOR_KEYS` (relative minors, same order). -/
def MINOR_KEYS : List String :=
  ["Am", "Em", "Bm", "F#m", "C#m", "G#m", "Ebm", "Bbm", "Fm", "Cm", "Gm", "Dm"]

/-- `KeyOverlay.CENTER_RADIUS = 0.12` (fraction of the min dimension). -/
noncomputable def CENTER_RADIUS : ℝ := 0.12

/-- `KeyOverlay.INNER_RADIUS = 0.25`. -/
noncomputable def INNER_RADIUS : ℝ := 0.25

/-- `KeyOverlay.OUTER_RADIUS = 0.42`. -/
noncomputable def OUTER_RADIUS : ℝ := 0.42

/-- The overlay fields read by `getKeyAtPosition`: the canvas size
(from which `resize()` derives `centerX`, `centerY`, `minDim`) and the
current rotation offset of the radial menu. -/
structure Overlay where
  width : ℝ
  height : ℝ
  rotationOffset : ℝ

/-- `this.centerX` as set by `resize()`. -/
noncomputable def centerX (o : Overlay) : ℝ := o.width / 2

/-- `this.centerY` as set by `resize()`. -/
noncomputable def centerY (o : Overlay) : ℝ := o.height / 2

/-- `this.minDim` as set by `resize()`. -/
noncomputable def minDim (o : Overlay) : ℝ := min o.width o.height

/-- The `distance` local of `getKeyAtPosition`: pixel distance of the
normalized position from the canvas center. -/
noncomputable def distanceFromCenter (o : Overlay) (p : HandDetector.Pt) : ℝ :=
  let x := p.x * o.width
  let y := p.y * o.height
  let dx := x - centerX o
  let dy := y - centerY o
  Real.sqrt (dx * dx + dy * dy)

/-- The `angle` local of `getKeyAtPosition` before the rotation-offset
adjustment: `atan2(dx, -dy)` folded into `[0, 2π)` (0 = up, clockwise). -/
noncomputable def rawAngle (o : Overlay) (p : HandDetector.Pt) : ℝ :=
  let dx := p.x * o.width - centerX o
  let dy := p.y * o.height - centerY o
  let a := jsAtan2 dx (-dy)
  if a < 0 then a + 2 * Real.pi else a

/-- The `angle` local after subtracting the current rotation offset
(JavaScript `%` on `2π`). -/
noncomputable def adjustedAngle (o : Overlay) (p : HandDetector.Pt) : ℝ :=
  jsRem (rawAngle o p - o.rotationOffset + 2 * Real.pi) (2 * Real.pi)

/-- The `segmentIndex` local: `floor(angle / (2π/12))`. -/
noncomputable def segmentIndex (o : Overlay) (p : HandDetector.Pt) : ℤ :=
  ⌊adjustedAngle o p / (2 * Real.pi / 12)⌋

/-- JavaScript array indexing `arr[i]` on a key table: `undefined`
(modelled as `none`) when the index is out of range. -/
def keyTableAt (l : List String) (i : ℤ) : Option String :=
  if h : 0 ≤ i ∧ i.toNat < l.length then some (l.get ⟨i.toNat, h.2⟩) else none

/-- `KeyOverlay.getKeyAtPosition(normalizedPos)`. -/
noncomputable def getKeyAtPosition (o : Overlay) (normalizedPos : Option HandDetector.Pt) :
    Option String :=
  match normalizedPos with
  | none => none
  | some p =>
    let distance := distanceFromCenter o p
    if distance < CENTER_RADIUS * minDim o then none
    else if distance < INNER_RADIUS * minDim o then keyTableAt MINOR_KEYS (segmentIndex o p)
    else if distance < OUTER_RADIUS * minDim o then keyTableAt MAJOR_KEYS (segmentIndex o p)
    else none

end KeyOverlay

/-! ## Concrete inputs used as test vectors by witnesses and
counterexamples -/

/-- A hand whose 21 landmarks all coincide at the origin: thumb and
index tips touch and no fingertip is below its MCP joint, so it
classifies as a pinch and not a fist. -/
noncomputable def pinchHandLm : HandDetector.Landmarks := fun _ => ⟨0, 0⟩

/-- A pinching hand at a different screen position: all landmarks at
`(1/2, 1/2)`. -/
noncomputable def pinchHandLm2 : HandDetector.Landmarks := fun _ => ⟨1/2, 1/2⟩

/-- A fist hand: every fingertip (indices 4, 8, 12, 16, 20) at `y = 1`,
below its MCP joint at `y = 0`; thumb and index tips are `1/2` apart so
the pinch distance test fails; the middle fingertip sits straight below
the wrist, giving rotation angle `90°`. -/
noncomputable def fistHandLm : HandDetector.Landmarks := fun i =>
  if i = 8 then ⟨1/2, 1⟩
  else if i = 4 ∨ i = 12 ∨ i = 16 ∨ i = 20 then ⟨0, 1⟩
  else ⟨0, 0⟩

/-- A frame in which the left hand pinches while the right hand makes
a fist. -/
noncomputable def mixedHands : List HandDetector.HandInput :=
  [⟨"Left", pinchHandLm⟩, ⟨"Right", fistHandLm⟩]

/-- A frame in which both hands pinch, at different positions. -/
noncomputable def twoPinchHands : List HandDetector.HandInput :=
  [⟨"Left", pinchHandLm⟩, ⟨"Right", pinchHandLm2⟩]

/-- A frame with a single left-hand fist. -/
noncomputable def leftFistHands : List HandDetector.HandInput :=
  [⟨"Left", fistHandLm⟩]

/-- A 1000×1000 canvas with rotation offset 0. -/
noncomputable def testOverlay : KeyOverlay.Overlay := ⟨1000, 1000, 0⟩

/-- The exact center of the canvas in normalized coordinates. -/
noncomputable def centerPos : HandDetector.Pt := ⟨1/2, 1/2⟩

/-- A position straight up from the center at pixel distance 200:
inside the minor-key ring of a 1000×1000 canvas. -/
noncomputable def minorRingPos : HandDetector.Pt := ⟨1/2, 3/10⟩

/-! ## Theorems about the audio engine -/

section AudioTheorems

open AudioEngine

/-- An invalid setter argument makes `_validateNumber` return the
fallback value unchanged. -/
theorem validateNumber_invalid {v : JsNum} (hv : v.isValidNumber = false) (fb : ℚ) :
    validateNumber v fb = fb := by
  cases v with
  | val x => simp [JsNum.isValidNumber] at hv
  | nan => rfl
  | infinite => rfl
  | nonNumber => rfl

/-- C9: an invalid input to `setIntensity` or `setWidth` behaves
exactly as re-submitting the immediately preceding valid value: the
stored last-valid value is unchanged and the commands applied to the
audio graph are those of the last valid value, so the invalid value
itself is never applied and no error is raised (both setters are total). -/
theorem setters_invalid_input_fallback (s : EngineState) (v : JsNum)
    (hv : v.isValidNumber = false) :
    setIntensity s v = setIntensity s (.val s.lastValidIntensity) ∧
    setWidth s v = setWidth s (.val s.lastValidWidth) ∧
    (setIntensity s v).1.lastValidIntensity = s.lastValidIntensity ∧
    (setWidth s v).1.lastValidWidth = s.lastValidWidth := by
  have hI : validateNumber v s.lastValidIntensity = s.lastValidIntensity :=
    validateNumber_invalid hv _
  have hW : validateNumber v s.lastValidWidth = s.lastValidWidth :=
    validateNumber_invalid hv _
  have hI' : validateNumber (.val s.lastValidIntensity) s.lastValidIntensity
      = s.lastValidIntensity := rfl
  have hW' : validateNumber (.val s.lastValidWidth) s.lastValidWidth
      = s.lastValidWidth := rfl
  refine ⟨?_, ?_, ?_, ?_⟩
  · simp only [setIntensity, hI, hI']
  · simp only [setWidth, hW, hW']
  · simp only [setIntensity, hI]; split <;> rfl
  · simp only [setWidth, hW]; split <;> rfl

/-- Witness for C9 at a concrete invalid input (`NaN` on the fresh engine). -/
theorem setters_invalid_input_fallback_witness :
    JsNum.nan.isValidNumber = false ∧
    (setIntensity initialEngine .nan
        = setIntensity initialEngine (.val initialEngine.lastValidIntensity) ∧
      setWidth initialEngine .nan
        = setWidth initialEngine (.val initialEngine.lastValidWidth) ∧
      (setIntensity initialEngine .nan).1.lastValidIntensity
        = initialEngine.lastValidIntensity ∧
      (setWidth initialEngine .nan).1.lastValidWidth = initialEngine.lastValidWidth) :=
  ⟨rfl, setters_invalid_input_fallback initialEngine .nan rfl⟩

/-- C5: two `setIntensity` calls before initialization emit nothing;
the queue keeps only the second value, and completing initialization
applies exactly the second value's mapping, once, and clears the queue. -/
theorem pending_intensity_latest_wins (s : EngineState) (a b : ℚ)
    (hs : s.status ≠ EngineStatus.initialized) (hw : s.pendingWidth = none) :
    (setIntensity s (.val a)).2 = [] ∧
    (setIntensity (setIntensity s (.val a)).1 (.val b)).2 = [] ∧
    (setIntensity (setIntensity s (.val a)).1 (.val b)).1.pendingIntensity = some b ∧
    (finishInit (setIntensity (setIntensity s (.val a)).1 (.val b)).1).2
      = intensityCmds (clamp b 0 1) ∧
    (finishInit (setIntensity (setIntensity s (.val a)).1 (.val b)).1).1.pendingIntensity
      = none := by
  simp [setIntensity, finishInit, setWidth, isInitialized, validateNumber, hs, hw]

/-- Witness for C5: queue 0.3 then 0.7 on the fresh engine. -/
theorem pending_intensity_latest_wins_witness :
    initialEngine.status ≠ EngineStatus.initialized ∧
    initialEngine.pendingWidth = none ∧
    ((setIntensity initialEngine (.val 0.3)).2 = [] ∧
      (setIntensity (setIntensity initialEngine (.val 0.3)).1 (.val 0.7)).2 = [] ∧
      (setIntensity (setIntensity initialEngine (.val 0.3)).1
          (.val 0.7)).1.pendingIntensity = some 0.7 ∧
      (finishInit (setIntensity (setIntensity initialEngine (.val 0.3)).1
          (.val 0.7)).1).2 = intensityCmds (clamp 0.7 0 1) ∧
      (finishInit (setIntensity (setIntensity initialEngine (.val 0.3)).1
          (.val 0.7)).1).1.pendingIntensity = none) :=
  ⟨fun h => by simp [initialEngine] at h, rfl,
    pending_intensity_latest_wins initialEngine 0.3 0.7
      (fun h => by simp [initialEngine] at h) rfl⟩

/-- C8: `setKey('Am')` stores `currentKey = 'Am'`, `isMinor = true`,
and chord-tone frequencies `220 * [1, 1.5, 2, 2.4] = [220, 330, 440, 528]`. -/
theorem setKey_Am_roundTrip (s : EngineState) :
    (setKey s "Am").1.currentKey = "Am" ∧
    (setKey s "Am").1.isMinor = true ∧
    (setKey s "Am").1.baseFreqs = [220, 330, 440, 528] := by
  have he : endsWithM "Am" = true := rfl
  have hd : dropLastChar "Am" = "A" := rfl
  have hr : ROOT_FREQUENCIES "A" = some 220.00 := rfl
  simp only [setKey, he, hd, hr, if_true, MINOR_INTERVALS, List.map]
  refine ⟨?_, ?_, ?_⟩ <;> split <;> norm_num

/-- A `setKey` whose root name is found never takes the unknown-key
warning branch and always installs the requested key name. -/
theorem setKey_known (s : EngineState) (k : String)
    (h : (ROOT_FREQUENCIES (if endsWithM k then dropLastChar k else k)).isSome = true) :
    (setKey s k).2.2 = false ∧ (setKey s k).1.currentKey = k := by
  unfold setKey
  cases hr : ROOT_FREQUENCIES (if endsWithM k then dropLastChar k else k) with
  | none => rw [hr] at h; simp at h
  | some f => simp only [hr]; refine ⟨?_, ?_⟩ <;> split <;> split <;> rfl

/-- C10: every name in the 24-entry radial-menu key tables parses to a
root present in `ROOT_FREQUENCIES`, so `setKey` accepts it without the
unknown-key warning and updates the current key. -/
theorem menu_keys_accepted_by_setKey (s : EngineState) (k : String)
    (hk : k ∈ KeyOverlay.MAJOR_KEYS ++ KeyOverlay.MINOR_KEYS) :
    (setKey s k).2.2 = false ∧ (setKey s k).1.currentKey = k := by
  fin_cases hk <;> exact setKey_known s _ (by decide)

/-- Witness for C10 at the concrete menu entry `'Am'`. -/
theorem menu_keys_accepted_by_setKey_witness :
    "Am" ∈ KeyOverlay.MAJOR_KEYS ++ KeyOverlay.MINOR_KEYS ∧
    ((setKey initialEngine "Am").2.2 = false ∧
      (setKey initialEngine "Am").1.currentKey = "Am") :=
  ⟨by decide, menu_keys_accepted_by_setKey initialEngine "Am" (by decide)⟩

end AudioTheorems

/-! ## Theorems about the gesture classifier geometry -/

section ClassifierTheorems

open HandDetector

/-- `Math.atan2` lands in `(-π, π]`. -/
theorem jsAtan2_bounds (y x : ℝ) : -Real.pi < jsAtan2 y x ∧ jsAtan2 y x ≤ Real.pi := by
  have hpi := Real.pi_pos
  unfold jsAtan2
  split_ifs with h1 h2 h3 h4 h5
  · have hl := Real.neg_pi_div_two_lt_arctan (y / x)
    have hu := Real.arctan_lt_pi_div_two (y / x)
    constructor <;> linarith
  · have hyx : y / x ≤ 0 := div_nonpos_of_nonneg_of_nonpos h3 h2.le
    have ha : Real.arctan (y / x) ≤ 0 := by
      have := Real.arctan_strictMono.monotone hyx
      rwa [Real.arctan_zero] at this
    have hl := Real.neg_pi_div_two_lt_arctan (y / x)
    constructor <;> linarith
  · have hyx : 0 < y / x := div_pos_of_neg_of_neg (lt_of_not_le h3) h2
    have ha : 0 < Real.arctan (y / x) := by
      have := Real.arctan_strictMono hyx
      rwa [Real.arctan_zero] at this
    have hu := Real.arctan_lt_pi_div_two (y / x)
    constructor <;> linarith
  · constructor <;> linarith
  · constructor <;> linarith
  · constructor <;> linarith

/-- The normalization of `calculateHandRotation` folds the `+90°`
rotated angle into `(-180, 180]`. -/
theorem normalizedAngle_bounds (lm : Landmarks) :
    -180 < normalizedAngle lm ∧ normalizedAngle lm ≤ 180 := by
  have hpi := Real.pi_pos
  have h180 : (0 : ℝ) < 180 / Real.pi := by positivity
  obtain ⟨hl, hu⟩ := jsAtan2_bounds ((lm 12).y - (lm 0).y) ((lm 12).x - (lm 0).x)
  have hmul_u : jsAtan2 ((lm 12).y - (lm 0).y) ((lm 12).x - (lm 0).x) * (180 / Real.pi)
      ≤ 180 := by
    have h1 := mul_le_mul_of_nonneg_right hu h180.le
    have h2 : Real.pi * (180 / Real.pi) = 180 := by field_simp
    linarith
  have hmul_l : -180 < jsAtan2 ((lm 12).y - (lm 0).y) ((lm 12).x - (lm 0).x) * (180 / Real.pi) := by
    have h1 := mul_lt_mul_of_pos_right hl h180
    have h2 : -Real.pi * (180 / Real.pi) = -180 := by field_simp; ring
    linarith
  simp only [normalizedAngle]
  split_ifs with hA hB hB' <;> constructor <;> linarith

/-- C6: for every landmark set, `calculateHandRotation` rotates the
atan2 angle by +90°, folds it into `(-180, 180]` (the `normalizedAngle`
value), clamps to `[-90, 90]`, and hence always returns a value in
`[-90, 90]`. -/
theorem rotation_clamp (lm : Landmarks) :
    -90 ≤ calculateHandRotation lm ∧ calculateHandRotation lm ≤ 90 ∧
    -180 < normalizedAngle lm ∧ normalizedAngle lm ≤ 180 ∧
    calculateHandRotation lm = max (-90) (min 90 (normalizedAngle lm)) := by
  obtain ⟨hl, hu⟩ := normalizedAngle_bounds lm
  refine ⟨le_max_left _ _, ?_, hl, hu, rfl⟩
  exact max_le (by norm_num) (min_le_left _ _)

end ClassifierTheorems

/-! ## Theorems about the key selector -/

section KeySelectorTheorems

open KeyOverlay

/-- The folded `atan2(dx, -dy)` angle of `getKeyAtPosition` lies in `[0, 2π)`. -/
theorem rawAngle_bounds (o : Overlay) (p : HandDetector.Pt) :
    0 ≤ rawAngle o p ∧ rawAngle o p < 2 * Real.pi := by
  have hpi := Real.pi_pos
  obtain ⟨hl, hu⟩ :=
    jsAtan2_bounds (p.x * o.width - centerX o) (-(p.y * o.height - centerY o))
  simp only [rawAngle]
  split_ifs with h
  · constructor <;> linarith
  · constructor <;> linarith

/-- The JavaScript remainder of a nonnegative number by a positive
modulus lies in `[0, m)`. -/
theorem jsRem_bounds {x m : ℝ} (hx : 0 ≤ x) (hm : 0 < m) :
    0 ≤ jsRem x m ∧ jsRem x m < m := by
  have hxm : 0 ≤ x / m := div_nonneg hx hm.le
  have ht : jsTrunc (x / m) = ⌊x / m⌋ := if_pos hxm
  have key : jsRem x m = m * Int.fract (x / m) := by
    rw [jsRem, ht, Int.fract]
    have hmne : m ≠ 0 := hm.ne'
    field_simp
  constructor
  · rw [key]
    exact mul_nonneg hm.le (Int.fract_nonneg _)
  · rw [key]
    have := mul_lt_mul_of_pos_left (Int.fract_lt_one (x / m)) hm
    linarith

/-- After subtracting the rotation offset mod `2π`, the angle lies in
`[0, 2π)` (for every rotation offset the animation can produce, i.e.
any offset `≤ 2π`). -/
theorem adjustedAngle_bounds (o : Overlay) (p : HandDetector.Pt)
    (hrot : o.rotationOffset ≤ 2 * Real.pi) :
    0 ≤ adjustedAngle o p ∧ adjustedAngle o p < 2 * Real.pi := by
  have hpi := Real.pi_pos
  obtain ⟨h0, _⟩ := rawAngle_bounds o p
  exact jsRem_bounds (by linarith) (by linarith)

/-- The computed segment index is one of the 12 clock positions. -/
theorem segmentIndex_bounds (o : Overlay) (p : HandDetector.Pt)
    (hrot : o.rotationOffset ≤ 2 * Real.pi) :
    0 ≤ segmentIndex o p ∧ segmentIndex o p < 12 := by
  have hpi := Real.pi_pos
  obtain ⟨h0, h2⟩ := adjustedAngle_bounds o p hrot
  have hseg : (0 : ℝ) < 2 * Real.pi / 12 := by positivity
  constructor
  · exact Int.le_floor.mpr (by push_cast; exact div_nonneg h0 hseg.le)
  · apply Int.floor_lt.mpr
    push_cast
    rw [div_lt_iff₀ hseg]
    have h12 : (12 : ℝ) * (2 * Real.pi / 12) = 2 * Real.pi := by ring
    linarith

/-- C4: `getKeyAtPosition` classifies every pinch position purely by
its distance from the menu center against the three fixed radii:
dead-zone and outside-wheel positions give `null`; the two rings give
the minor/major table entry at the computed segment index; distance
exactly 0 gives `null` for every rotation offset; and for every
rotation offset the animation can produce the segment index is in
`[0, 12)` so the table entry exists. -/
theorem getKeyAtPosition_rings (o : Overlay) (p : HandDetector.Pt) :
    (distanceFromCenter o p < CENTER_RADIUS * minDim o →
      getKeyAtPosition o (some p) = none) ∧
    (CENTER_RADIUS * minDim o ≤ distanceFromCenter o p →
      distanceFromCenter o p < INNER_RADIUS * minDim o →
      getKeyAtPosition o (some p) = keyTableAt MINOR_KEYS (segmentIndex o p)) ∧
    (INNER_RADIUS * minDim o ≤ distanceFromCenter o p →
      distanceFromCenter o p < OUTER_RADIUS * minDim o →
      getKeyAtPosition o (some p) = keyTableAt MAJOR_KEYS (segmentIndex o p)) ∧
    (OUTER_RADIUS * minDim o ≤ distanceFromCenter o p →
      getKeyAtPosition o (some p) = none) ∧
    (distanceFromCenter o p = 0 → getKeyAtPosition o (some p) = none) ∧
    (o.rotationOffset ≤ 2 * Real.pi →
      0 ≤ segmentIndex o p ∧ segmentIndex o p < 12) := by
  have hcr : CENTER_RADIUS = (0.12 : ℝ) := rfl
  have hir : INNER_RADIUS = (0.25 : ℝ) := rfl
  have hor : OUTER_RADIUS = (0.42 : ℝ) := rfl
  refine ⟨?_, ?_, ?_, ?_, ?_, fun h => segmentIndex_bounds o p h⟩
  · intro h
    simp only [getKeyAtPosition]
    rw [if_pos h]
  · intro h1 h2
    simp only [getKeyAtPosition]
    rw [if_neg (not_lt.mpr h1), if_pos h2]
  · intro h1 h2
    have hm : 0 < minDim o := by
      by_contra hm
      push_neg at hm
      have : OUTER_RADIUS * minDim o ≤ INNER_RADIUS * minDim o := by
        rw [hir, hor]; nlinarith
      linarith
    have hci : CENTER_RADIUS * minDim o ≤ INNER_RADIUS * minDim o := by
      rw [hcr, hir]; nlinarith
    simp only [getKeyAtPosition]
    rw [if_neg (not_lt.mpr (le_trans hci h1)), if_neg (not_lt.mpr h1), if_pos h2]
  · intro h1
    have hd0 : 0 ≤ distanceFromCenter o p := Real.sqrt_nonneg _
    by_cases hm : 0 < minDim o
    · have hco : CENTER_RADIUS * minDim o ≤ OUTER_RADIUS * minDim o := by
        rw [hcr, hor]; nlinarith
      have hio : INNER_RADIUS * minDim o ≤ OUTER_RADIUS * minDim o := by
        rw [hir, hor]; nlinarith
      simp only [getKeyAtPosition]
      rw [if_neg (not_lt.mpr (le_trans hco h1)), if_neg (not_lt.mpr (le_trans hio h1)),
        if_neg (not_lt.mpr h1)]
    · push_neg at hm
      have hc : CENTER_RADIUS * minDim o ≤ 0 := by rw [hcr]; nlinarith
      have hi : INNER_RADIUS * minDim o ≤ 0 := by rw [hir]; nlinarith
      have ho : OUTER_RADIUS * minDim o ≤ 0 := by rw [hor]; nlinarith
      simp only [getKeyAtPosition]
      rw [if_neg (not_lt.mpr (le_trans hc hd0)), if_neg (not_lt.mpr (le_trans hi hd0)),
        if_neg (not_lt.mpr (le_trans ho hd0))]
  · intro h0
    by_cases hm : 0 < minDim o
    · have : distanceFromCenter o p < CENTER_RADIUS * minDim o := by
        rw [h0, hcr]; nlinarith
      simp only [getKeyAtPosition]
      rw [if_pos this]
    · push_neg at hm
      have hc : CENTER_RADIUS * minDim o ≤ 0 := by rw [hcr]; nlinarith
      have hi : INNER_RADIUS * minDim o ≤ 0 := by rw [hir]; nlinarith
      have ho : OUTER_RADIUS * minDim o ≤ 0 := by rw [hor]; nlinarith
      simp only [getKeyAtPosition]
      rw [if_neg (by rw [h0]; exact not_lt.mpr hc), if_neg (by rw [h0]; exact not_lt.mpr hi),
        if_neg (by rw [h0]; exact not_lt.mpr ho)]

end KeySelectorTheorems

/-! ## Concrete evaluation of the key selector (C4 witness) -/

section KeySelectorWitness

open KeyOverlay

/-- The canvas-center position has pixel distance 0 from the center. -/
theorem distance_centerPos : distanceFromCenter testOverlay centerPos = 0 := by
  have h : (1 / 2 : ℝ) * 1000 - centerX testOverlay = 0 := by
    simp [centerX, testOverlay]
    norm_num
  simp only [distanceFromCenter, testOverlay, centerPos, centerX, centerY]
  norm_num [Real.sqrt_zero]

/-- The ring test position has pixel distance 200 from the center. -/
theorem distance_minorRingPos : distanceFromCenter testOverlay minorRingPos = 200 := by
  simp only [distanceFromCenter, testOverlay, minorRingPos, centerX, centerY]
  have h : ((1 / 2 : ℝ) * 1000 - 1000 / 2) * ((1 / 2 : ℝ) * 1000 - 1000 / 2) +
      ((3 / 10 : ℝ) * 1000 - 1000 / 2) * ((3 / 10 : ℝ) * 1000 - 1000 / 2) = 200 ^ 2 := by
    norm_num
  rw [h, Real.sqrt_sq (by norm_num : (0 : ℝ) ≤ 200)]

/-- Straight up from the center with rotation offset 0 is segment 0. -/
theorem segmentIndex_minorRingPos : segmentIndex testOverlay minorRingPos = 0 := by
  have hpi := Real.pi_pos
  have hraw : rawAngle testOverlay minorRingPos = 0 := by
    simp only [rawAngle, testOverlay, minorRingPos, centerX, centerY]
    have hdx : (1 / 2 : ℝ) * 1000 - 1000 / 2 = 0 := by norm_num
    have hdy : -((3 / 10 : ℝ) * 1000 - 1000 / 2) = 200 := by norm_num
    rw [hdx, hdy]
    have ha : jsAtan2 0 200 = 0 := by
      rw [jsAtan2, if_pos (by norm_num : (0 : ℝ) < 200)]
      norm_num [Real.arctan_zero]
    rw [ha, if_neg (by norm_num)]
  have hadj : adjustedAngle testOverlay minorRingPos = 0 := by
    have h2pi : (2 : ℝ) * Real.pi ≠ 0 := by positivity
    have hrot : testOverlay.rotationOffset = 0 := rfl
    simp only [adjustedAngle, hraw, hrot]
    have hx : (0 : ℝ) - 0 + 2 * Real.pi = 2 * Real.pi := by ring
    rw [hx, jsRem]
    rw [div_self h2pi]
    have ht : jsTrunc 1 = 1 := by
      rw [jsTrunc, if_pos (by norm_num : (0 : ℝ) ≤ 1)]
      exact Int.floor_one
    rw [ht]
    push_cast
    ring
  rw [segmentIndex, hadj, zero_div, Int.floor_zero]

/-- Witness for C4: on a 1000×1000 canvas with rotation offset 0, the
exact center resolves to `null`, and a point 200 px straight up (between
the 120 px center radius and the 250 px inner radius) resolves to the
minor key at segment 0, `'Am'`. -/
theorem getKeyAtPosition_rings_witness :
    distanceFromCenter testOverlay centerPos = 0 ∧
    getKeyAtPosition testOverlay (some centerPos) = none ∧
    CENTER_RADIUS * minDim testOverlay ≤ distanceFromCenter testOverlay minorRingPos ∧
    distanceFromCenter testOverlay minorRingPos < INNER_RADIUS * minDim testOverlay ∧
    getKeyAtPosition testOverlay (some minorRingPos) = some "Am" := by
  have hmd : minDim testOverlay = 1000 := by
    simp [minDim, testOverlay]
  have h1 : CENTER_RADIUS * minDim testOverlay ≤ distanceFromCenter testOverlay minorRingPos := by
    rw [distance_minorRingPos, hmd, CENTER_RADIUS]; norm_num
  have h2 : distanceFromCenter testOverlay minorRingPos < INNER_RADIUS * minDim testOverlay := by
    rw [distance_minorRingPos, hmd, INNER_RADIUS]; norm_num
  refine ⟨distance_centerPos,
    (getKeyAtPosition_rings testOverlay centerPos).2.2.2.2.1 distance_centerPos,
    h1, h2, ?_⟩
  rw [(getKeyAtPosition_rings testOverlay minorRingPos).2.1 h1 h2, segmentIndex_minorRingPos]
  rfl

end KeySelectorWitness

/-! ## Evaluation of the classifiers on the concrete test hands -/

section ClassifierEval

open HandDetector

/-- The all-zero hand is not a fist (no fingertip is below its MCP). -/
theorem not_isFist_pinchHandLm : ¬ isFist pinchHandLm := by
  simp [isFist, foldedFingers, fingerTips, fingerMCPs, pinchHandLm]

/-- The all-zero hand is a pinch. -/
theorem isPinch_pinchHandLm : isPinch pinchHandLm := by
  refine ⟨?_, not_isFist_pinchHandLm⟩
  have h : pinchDistance pinchHandLm = 0 := by
    simp [pinchDistance, pinchHandLm, Real.sqrt_zero]
  rw [h, PINCH_THRESHOLD]
  norm_num

/-- The second pinching hand is not a fist. -/
theorem not_isFist_pinchHandLm2 : ¬ isFist pinchHandLm2 := by
  simp [isFist, foldedFingers, fingerTips, fingerMCPs, pinchHandLm2]

/-- The second concrete hand is a pinch. -/
theorem isPinch_pinchHandLm2 : isPinch pinchHandLm2 := by
  refine ⟨?_, not_isFist_pinchHandLm2⟩
  have h : pinchDistance pinchHandLm2 = 0 := by
    simp [pinchDistance, pinchHandLm2, Real.sqrt_zero]
  rw [h, PINCH_THRESHOLD]
  norm_num

/-- The concrete fist hand is a fist (all five fingers folded). -/
theorem isFist_fistHandLm : isFist fistHandLm := by
  simp [isFist, foldedFingers, fingerTips, fingerMCPs, fistHandLm]

/-- The concrete fist hand is not a pinch (`isPinch` requires not-fist). -/
theorem not_isPinch_fistHandLm : ¬ isPinch fistHandLm :=
  fun h => h.2 isFist_fistHandLm

/-- The concrete fist hand's classified rotation is 90°. -/
theorem rotation_fistHandLm : calculateHandRotation fistHandLm = 90 := by
  have hpi := Real.pi_pos
  have h1 : normalizedAngle fistHandLm = 180 := by
    have hw : fistHandLm 0 = ⟨0, 0⟩ := by simp [fistHandLm]
    have ht : fistHandLm 12 = ⟨0, 1⟩ := by simp [fistHandLm]
    simp only [normalizedAngle, hw, ht]
    have hdx : (Pt.mk 0 1).x - (Pt.mk 0 0).x = 0 := by norm_num
    have hdy : (Pt.mk 0 1).y - (Pt.mk 0 0).y = 1 := by norm_num
    rw [hdx, hdy]
    have ha : jsAtan2 1 0 = Real.pi / 2 := by
      rw [jsAtan2]
      rw [if_neg (by norm_num), if_neg (by norm_num), if_pos (by norm_num)]
    rw [ha]
    have hq : Real.pi / 2 * (180 / Real.pi) + 90 = 180 := by
      field_simp
      ring
    rw [hq]
    rw [if_neg (by norm_num), if_neg (by norm_num)]
  rw [calculateHandRotation, h1]
  norm_num

end ClassifierEval

/-! ## The gesture state machine: structural lemmas -/

section StateMachineLemmas

open HandDetector

/-- One scan step's effect on the frame's pinch candidate: a pinching
hand overwrites it, any other hand leaves it. -/
theorem scanHand_pinchData (acc : ScanResult) (h : HandInput) :
    (scanHand acc h).pinchData =
      if isPinch h.landmarks then
        some (getPinchPosition h.landmarks, toLowerString h.label)
      else acc.pinchData := by
  simp only [scanHand]
  split_ifs <;> rfl

/-- One scan step's effect on the frame's pinch-detected flag. -/
theorem scanHand_pinchDetected (acc : ScanResult) (h : HandInput) :
    (scanHand acc h).pinchDetected =
      if isPinch h.landmarks then true else acc.pinchDetected := by
  simp only [scanHand]
  split_ifs <;> rfl

/-- One scan step's effect on the left-fist-detected flag. -/
theorem scanHand_leftFistDetected (acc : ScanResult) (h : HandInput) :
    (scanHand acc h).leftFistDetected =
      if (isFist h.landmarks ∧ ¬ isPinch h.landmarks) ∧ h.label = "Left" then true
      else acc.leftFistDetected := by
  simp only [scanHand]
  by_cases hp : isPinch h.landmarks <;>
    by_cases hfi : isFist h.landmarks <;>
      by_cases hl : h.label = "Left" <;>
        simp [hp, hfi, hl]

/-- One scan step's effect on the right-fist-detected flag. -/
theorem scanHand_rightFistDetected (acc : ScanResult) (h : HandInput) :
    (scanHand acc h).rightFistDetected =
      if (isFist h.landmarks ∧ ¬ isPinch h.landmarks) ∧ ¬ h.label = "Left" then true
      else acc.rightFistDetected := by
  simp only [scanHand]
  by_cases hp : isPinch h.landmarks <;>
    by_cases hfi : isFist h.landmarks <;>
      by_cases hl : h.label = "Left" <;>
        simp [hp, hfi, hl]

/-- One scan step's effect on the raw left-hand rotation store. -/
theorem scanHand_hand1Rotation (acc : ScanResult) (h : HandInput) :
    (scanHand acc h).hand1Rotation =
      if (isFist h.landmarks ∧ ¬ isPinch h.landmarks) ∧ h.label = "Left" then
        calculateHandRotation h.landmarks
      else acc.hand1Rotation := by
  simp only [scanHand]
  by_cases hp : isPinch h.landmarks <;>
    by_cases hfi : isFist h.landmarks <;>
      by_cases hl : h.label = "Left" <;>
        simp [hp, hfi, hl]

/-- One scan step's effect on the raw right-hand rotation store. -/
theorem scanHand_hand2Rotation (acc : ScanResult) (h : HandInput) :
    (scanHand acc h).hand2Rotation =
      if (isFist h.landmarks ∧ ¬ isPinch h.landmarks) ∧ ¬ h.label = "Left" then
        calculateHandRotation h.landmarks
      else acc.hand2Rotation := by
  simp only [scanHand]
  by_cases hp : isPinch h.landmarks <;>
    by_cases hfi : isFist h.landmarks <;>
      by_cases hl : h.label = "Left" <;>
        simp [hp, hfi, hl]

/-- If no hand in the frame is a non-pinching left-labelled fist, the
scan leaves the left-fist-detected flag `false`. -/
theorem foldl_leftFistDetected_false (hands : List HandInput) (acc : ScanResult)
    (hacc : acc.leftFistDetected = false)
    (H : ∀ h ∈ hands,
      ¬((isFist h.landmarks ∧ ¬ isPinch h.landmarks) ∧ h.label = "Left")) :
    (hands.foldl scanHand acc).leftFistDetected = false := by
  induction hands generalizing acc with
  | nil => simpa using hacc
  | cons h t ih =>
    simp only [List.foldl_cons]
    apply ih
    · rw [scanHand_leftFistDetected, if_neg (H h (List.mem_cons_self h t)), hacc]
    · intro x hx
      exact H x (List.mem_cons_of_mem h hx)

/-- If no hand in the frame is a non-pinching non-left fist, the scan
leaves the right-fist-detected flag `false`. -/
theorem foldl_rightFistDetected_false (hands : List HandInput) (acc : ScanResult)
    (hacc : acc.rightFistDetected = false)
    (H : ∀ h ∈ hands,
      ¬((isFist h.landmarks ∧ ¬ isPinch h.landmarks) ∧ ¬ h.label = "Left")) :
    (hands.foldl scanHand acc).rightFistDetected = false := by
  induction hands generalizing acc with
  | nil => simpa using hacc
  | cons h t ih =>
    simp only [List.foldl_cons]
    apply ih
    · rw [scanHand_rightFistDetected, if_neg (H h (List.mem_cons_self h t)), hacc]
    · intro x hx
      exact H x (List.mem_cons_of_mem h hx)

/-- If no hand in the frame is pinching, the scan leaves the
pinch-detected flag `false`. -/
theorem foldl_pinchDetected_false (hands : List HandInput) (acc : ScanResult)
    (hacc : acc.pinchDetected = false)
    (H : ∀ h ∈ hands, ¬ isPinch h.landmarks) :
    (hands.foldl scanHand acc).pinchDetected = false := by
  induction hands generalizing acc with
  | nil => simpa using hacc
  | cons h t ih =>
    simp only [List.foldl_cons]
    apply ih
    · rw [scanHand_pinchDetected, if_neg (H h (List.mem_cons_self h t)), hacc]
    · intro x hx
      exact H x (List.mem_cons_of_mem h hx)

/-- The pinch block never touches the published left rotation. -/
theorem processPinch_lastLeftRotation (s : DetectorState) (now : ℝ) (pd : Bool)
    (pdata : Option (Pt × String)) :
    (processPinch s now pd pdata).lastLeftRotation = s.lastLeftRotation := by
  cases hps : s.pinchHoldStart <;>
    simp only [processPinch, hps] <;> split_ifs <;> rfl

/-- The pinch block never touches the published right rotation. -/
theorem processPinch_lastRightRotation (s : DetectorState) (now : ℝ) (pd : Bool)
    (pdata : Option (Pt × String)) :
    (processPinch s now pd pdata).lastRightRotation = s.lastRightRotation := by
  cases hps : s.pinchHoldStart <;>
    simp only [processPinch, hps] <;> split_ifs <;> rfl

/-- The pinch block never touches the left hold slot. -/
theorem processPinch_fistHoldStartLeft (s : DetectorState) (now : ℝ) (pd : Bool)
    (pdata : Option (Pt × String)) :
    (processPinch s now pd pdata).fistHoldStartLeft = s.fistHoldStartLeft := by
  cases hps : s.pinchHoldStart <;>
    simp only [processPinch, hps] <;> split_ifs <;> rfl

/-- The pinch block never touches the left active flag. -/
theorem processPinch_fistActiveLeft (s : DetectorState) (now : ℝ) (pd : Bool)
    (pdata : Option (Pt × String)) :
    (processPinch s now pd pdata).fistActiveLeft = s.fistActiveLeft := by
  cases hps : s.pinchHoldStart <;>
    simp only [processPinch, hps] <;> split_ifs <;> rfl

/-- The pinch block never touches the right hold slot. -/
theorem processPinch_fistHoldStartRight (s : DetectorState) (now : ℝ) (pd : Bool)
    (pdata : Option (Pt × String)) :
    (processPinch s now pd pdata).fistHoldStartRight = s.fistHoldStartRight := by
  cases hps : s.pinchHoldStart <;>
    simp only [processPinch, hps] <;> split_ifs <;> rfl

/-- The pinch block never touches the right active flag. -/
theorem processPinch_fistActiveRight (s : DetectorState) (now : ℝ) (pd : Bool)
    (pdata : Option (Pt × String)) :
    (processPinch s now pd pdata).fistActiveRight = s.fistActiveRight := by
  cases hps : s.pinchHoldStart <;>
    simp only [processPinch, hps] <;> split_ifs <;> rfl

/-- The right-fist block never touches the published left rotation. -/
theorem processRightFist_lastLeftRotation (s : DetectorState) (now : ℝ) (b : Bool) :
    (processRightFist s now b).lastLeftRotation = s.lastLeftRotation := by
  cases hps : s.fistHoldStartRight <;>
    simp only [processRightFist, hps] <;> split_ifs <;> rfl

/-- The right-fist block never touches the left hold slot. -/
theorem processRightFist_fistHoldStartLeft (s : DetectorState) (now : ℝ) (b : Bool) :
    (processRightFist s now b).fistHoldStartLeft = s.fistHoldStartLeft := by
  cases hps : s.fistHoldStartRight <;>
    simp only [processRightFist, hps] <;> split_ifs <;> rfl

/-- The right-fist block never touches the left active flag. -/
theorem processRightFist_fistActiveLeft (s : DetectorState) (now : ℝ) (b : Bool) :
    (processRightFist s now b).fistActiveLeft = s.fistActiveLeft := by
  cases hps : s.fistHoldStartRight <;>
    simp only [processRightFist, hps] <;> split_ifs <;> rfl

/-- The right-fist block never touches the pinch hold slot. -/
theorem processRightFist_pinchHoldStart (s : DetectorState) (now : ℝ) (b : Bool) :
    (processRightFist s now b).pinchHoldStart = s.pinchHoldStart := by
  cases hps : s.fistHoldStartRight <;>
    simp only [processRightFist, hps] <;> split_ifs <;> rfl

/-- The right-fist block never touches the pinch confirmation flag. -/
theorem processRightFist_pinchActiveConfirmed (s : DetectorState) (now : ℝ) (b : Bool) :
    (processRightFist s now b).pinchActiveConfirmed = s.pinchActiveConfirmed := by
  cases hps : s.fistHoldStartRight <;>
    simp only [processRightFist, hps] <;> split_ifs <;> rfl

/-- The left-fist block never touches the published right rotation. -/
theorem processLeftFist_lastRightRotation (s : DetectorState) (now : ℝ) (b : Bool) :
    (processLeftFist s now b).lastRightRotation = s.lastRightRotation := by
  cases hps : s.fistHoldStartLeft <;>
    simp only [processLeftFist, hps] <;> split_ifs <;> rfl

/-- The left-fist block never touches the right hold slot. -/
theorem processLeftFist_fistHoldStartRight (s : DetectorState) (now : ℝ) (b : Bool) :
    (processLeftFist s now b).fistHoldStartRight = s.fistHoldStartRight := by
  cases hps : s.fistHoldStartLeft <;>
    simp only [processLeftFist, hps] <;> split_ifs <;> rfl

/-- The left-fist block never touches the right active flag. -/
theorem processLeftFist_fistActiveRight (s : DetectorState) (now : ℝ) (b : Bool) :
    (processLeftFist s now b).fistActiveRight = s.fistActiveRight := by
  cases hps : s.fistHoldStartLeft <;>
    simp only [processLeftFist, hps] <;> split_ifs <;> rfl

/-- The left-fist block never touches the pinch hold slot. -/
theorem processLeftFist_pinchHoldStart (s : DetectorState) (now : ℝ) (b : Bool) :
    (processLeftFist s now b).pinchHoldStart = s.pinchHoldStart := by
  cases hps : s.fistHoldStartLeft <;>
    simp only [processLeftFist, hps] <;> split_ifs <;> rfl

/-- The left-fist block never touches the pinch confirmation flag. -/
theorem processLeftFist_pinchActiveConfirmed (s : DetectorState) (now : ℝ) (b : Bool) :
    (processLeftFist s now b).pinchActiveConfirmed = s.pinchActiveConfirmed := by
  cases hps : s.fistHoldStartLeft <;>
    simp only [processLeftFist, hps] <;> split_ifs <;> rfl

/-- The left-fist block with the gesture absent resets its slot. -/
theorem processLeftFist_false (s : DetectorState) (now : ℝ) :
    processLeftFist s now false =
      { s with fistHoldStartLeft := none, fistActiveLeft := false } := by
  simp [processLeftFist]

/-- The right-fist block with the gesture absent resets its slot. -/
theorem processRightFist_false (s : DetectorState) (now : ℝ) :
    processRightFist s now false =
      { s with fistHoldStartRight := none, fistActiveRight := false } := by
  simp [processRightFist]

/-- The pinch block with the gesture absent resets its slot. -/
theorem processPinch_false (s : DetectorState) (now : ℝ)
    (pdata : Option (Pt × String)) :
    processPinch s now false pdata =
      { s with pinchHoldStart := none, pinchActiveConfirmed := false,
               pinchActive := false, pinchPosition := none, pinchHand := none } := by
  simp [processPinch]

/-- The left-fist block on the first frame of a new hold run: the
timer starts, nothing is activated, nothing is published. -/
theorem processLeftFist_rearm (s : DetectorState) (now : ℝ)
    (hstart : s.fistHoldStartLeft = none) (hact : s.fistActiveLeft = false) :
    processLeftFist s now true = { s with fistHoldStartLeft := some now } := by
  simp only [processLeftFist, hstart, if_pos]
  rw [if_neg]
  simp [hact]

/-- The right-fist block on the first frame of a new hold run. -/
theorem processRightFist_rearm (s : DetectorState) (now : ℝ)
    (hstart : s.fistHoldStartRight = none) (hact : s.fistActiveRight = false) :
    processRightFist s now true = { s with fistHoldStartRight := some now } := by
  simp only [processRightFist, hstart, if_pos]
  rw [if_neg]
  simp [hact]

/-- The pinch block on the first frame of a new hold run: the timer
starts and the pinch stays unpublished. -/
theorem processPinch_rearm (s : DetectorState) (now : ℝ)
    (pdata : Option (Pt × String)) (hstart : s.pinchHoldStart = none) :
    processPinch s now true pdata =
      { s with pinchHoldStart := some now, pinchActiveConfirmed := false,
               pinchActive := false, pinchPosition := none, pinchHand := none } := by
  simp [processPinch, hstart]

end StateMachineLemmas

/-! ## The gesture state machine: claim theorems -/

section StateMachineClaims

open HandDetector

/-- C1 (amended): pinching suspends rotation tracking per hand — a
rotation value can only be published by a hand that is a fist and not
pinching, so in a frame without any non-pinching fist (in particular a
frame whose only gestures are pinches) neither published rotation
changes, whatever the pinch state. -/
theorem no_unpinched_fist_no_rotation_update (s : DetectorState) (now : ℝ)
    (hands : List HandInput)
    (H : ∀ h ∈ hands, ¬(isFist h.landmarks ∧ ¬ isPinch h.landmarks)) :
    (step s now hands).lastLeftRotation = s.lastLeftRotation ∧
    (step s now hands).lastRightRotation = s.lastRightRotation := by
  have hL : (scanHands s hands).leftFistDetected = false := by
    rw [scanHands]
    exact foldl_leftFistDetected_false hands _ rfl (fun h hh hc => H h hh hc.1)
  have hR : (scanHands s hands).rightFistDetected = false := by
    rw [scanHands]
    exact foldl_rightFistDetected_false hands _ rfl (fun h hh hc => H h hh hc.1)
  constructor
  · simp only [step, getHandRotationAngle, hL, hR, processLeftFist_false,
      processRightFist_false, processPinch_lastLeftRotation]
  · simp only [step, getHandRotationAngle, hL, hR, processLeftFist_false,
      processRightFist_false, processPinch_lastRightRotation]

/-- Witness for the amended C1: a frame containing only a pinching
left hand leaves both published rotations unchanged. -/
theorem no_unpinched_fist_no_rotation_update_witness :
    (∀ h ∈ ([⟨"Left", pinchHandLm⟩] : List HandInput),
      ¬(isFist h.landmarks ∧ ¬ isPinch h.landmarks)) ∧
    ((step initialDetector 0 [⟨"Left", pinchHandLm⟩]).lastLeftRotation
        = initialDetector.lastLeftRotation ∧
      (step initialDetector 0 [⟨"Left", pinchHandLm⟩]).lastRightRotation
        = initialDetector.lastRightRotation) := by
  have hH : ∀ h ∈ ([⟨"Left", pinchHandLm⟩] : List HandInput),
      ¬(isFist h.landmarks ∧ ¬ isPinch h.landmarks) := by
    intro h hh
    rw [List.mem_singleton] at hh
    subst hh
    exact fun hc => not_isFist_pinchHandLm hc.1
  exact ⟨hH, no_unpinched_fist_no_rotation_update initialDetector 0 _ hH⟩

/-- The scan of the mixed frame (left hand pinching, right hand fist):
the pinch candidate is the left hand, the right fist is detected with
raw rotation 90°. -/
theorem scanHands_mixed (s : DetectorState) :
    scanHands s mixedHands =
      ⟨false, true, true, some (getPinchPosition pinchHandLm, "left"),
        s.hand1Rotation, 90⟩ := by
  have hRL : ¬ (("Right" : String) = "Left") := by decide
  have hlow : toLowerString "Left" = "left" := by decide
  simp [scanHands, mixedHands, scanHand, isPinch_pinchHandLm, not_isPinch_fistHandLm,
    isFist_fistHandLm, rotation_fistHandLm, hRL, hlow]

/-- Frame 1 of the C1 counterexample run: both hold timers start. -/
theorem step_mixed_frame1 :
    step initialDetector 0 mixedHands =
      { initialDetector with fistHoldStartRight := some 0, pinchHoldStart := some 0 } := by
  have h1 : (initialDetector : DetectorState).fistHoldStartRight = none := rfl
  have h2 : (initialDetector : DetectorState).pinchHoldStart = none := rfl
  simp [step, getHandRotationAngle, scanHands_mixed, processLeftFist_false,
    processRightFist_rearm, processPinch_rearm, h1, h2, initialDetector]

/-- C1 counterexample: with the left hand pinching and the right hand
holding a fist since the same instant, the frame at 450 ms publishes
`pinch.active = true` and in the very same frame updates
`lastRightRotation` from 0 to 90 — pinch activation and rotation
updates are not mutually exclusive across hands. -/
theorem pinch_active_and_rotation_update_coexist :
    (step (step initialDetector 0 mixedHands) 450 mixedHands).pinchActive = true ∧
    (step initialDetector 0 mixedHands).lastRightRotation = 0 ∧
    (step (step initialDetector 0 mixedHands) 450 mixedHands).lastRightRotation = 90 := by
  rw [step_mixed_frame1]
  refine ⟨?_, rfl, ?_⟩ <;>
    norm_num [step, getHandRotationAngle, scanHands_mixed, processLeftFist_false,
      processRightFist, processPinch, initialDetector, HOLD_DURATION_MS]

/-- The frame-local pinch candidate after the whole scan is that of
the LAST pinching hand in iteration order (each later pinching hand
overwrites the earlier candidate). -/
theorem foldl_pinchData_last (hands : List HandInput) (acc : ScanResult) :
    (hands.foldl scanHand acc).pinchData =
      match (hands.filter fun h => decide (isPinch h.landmarks)).getLast? with
      | some h => some (getPinchPosition h.landmarks, toLowerString h.label)
      | none => acc.pinchData := by
  induction hands using List.reverseRecOn with
  | nil => rfl
  | append_singleton t h ih =>
    rw [List.foldl_append, List.foldl_cons, List.foldl_nil, scanHand_pinchData,
      List.filter_append]
    by_cases hp : isPinch h.landmarks
    · simp [hp, List.getLast?_concat]
    · simp only [List.filter_cons, List.filter_nil, decide_eq_true_eq, hp, if_neg,
        List.append_nil, ite_false]
      exact ih

/-- C2 (amended): when several detected hands pinch in the same frame,
the recorded pinch candidate — and hence the pinch data published once
the pinch debouncer is ACTIVE — is that of the LAST pinching hand in
iteration order, not the first. -/
theorem pinch_candidate_is_last (s : DetectorState) (hands : List HandInput) :
    (scanHands s hands).pinchData =
      ((hands.filter fun h => decide (isPinch h.landmarks)).getLast?).map
        (fun h => (getPinchPosition h.landmarks, toLowerString h.label)) := by
  rw [scanHands, foldl_pinchData_last]
  cases (hands.filter fun h => decide (isPinch h.landmarks)).getLast? <;> rfl

/-- The scan of the two-pinch frame: the candidate is the second
(right) hand's data. -/
theorem scanHands_twoPinch (s : DetectorState) :
    scanHands s twoPinchHands =
      ⟨false, false, true, some (getPinchPosition pinchHandLm2, "right"),
        s.hand1Rotation, s.hand2Rotation⟩ := by
  have hlow : toLowerString "Right" = "right" := by decide
  simp [scanHands, twoPinchHands, scanHand, isPinch_pinchHandLm, isPinch_pinchHandLm2,
    hlow]

/-- Frame 1 of the C2 counterexample run: the pinch hold timer starts. -/
theorem step_twoPinch_frame1 :
    step initialDetector 0 twoPinchHands =
      { initialDetector with pinchHoldStart := some 0 } := by
  have h2 : (initialDetector : DetectorState).pinchHoldStart = none := rfl
  simp [step, getHandRotationAngle, scanHands_twoPinch, processLeftFist_false,
    processRightFist_false, processPinch_rearm, h2, initialDetector]

/-- C2 counterexample: when both hands pinch (left hand first in
iteration order), the pinch data published once the debouncer is
ACTIVE is the SECOND hand's (`'right'`, at its position), not the
first hand's — the claim that the first hand wins is false. -/
theorem published_pinch_is_second_hand :
    (step (step initialDetector 0 twoPinchHands) 450 twoPinchHands).pinchHand
        = some "right" ∧
    ¬ (step (step initialDetector 0 twoPinchHands) 450 twoPinchHands).pinchHand
        = some "left" ∧
    (step (step initialDetector 0 twoPinchHands) 450 twoPinchHands).pinchPosition
        = some (getPinchPosition pinchHandLm2) := by
  rw [step_twoPinch_frame1]
  have hne : ¬ (("right" : String) = "left") := by decide
  refine ⟨?_, ?_, ?_⟩ <;>
    norm_num [step, getHandRotationAngle, scanHands_twoPinch, processLeftFist_false,
      processRightFist_false, processPinch, initialDetector, HOLD_DURATION_MS, hne]

/-- The scan of a single left-fist frame. -/
theorem scanHands_leftFist (s : DetectorState) (h : HandInput)
    (hlab : h.label = "Left") (hf : isFist h.landmarks) (hnp : ¬ isPinch h.landmarks) :
    scanHands s [h] =
      ⟨true, false, false, none, calculateHandRotation h.landmarks, s.hand2Rotation⟩ := by
  simp [scanHands, scanHand, hf, hnp, hlab]

/-- The scan of a single right-fist frame. -/
theorem scanHands_rightFist (s : DetectorState) (h : HandInput)
    (hlab : ¬ h.label = "Left") (hf : isFist h.landmarks) (hnp : ¬ isPinch h.landmarks) :
    scanHands s [h] =
      ⟨false, true, false, none, s.hand1Rotation, calculateHandRotation h.landmarks⟩ := by
  simp [scanHands, scanHand, hf, hnp, hlab]

/-- C3: with a fist continuously present on one hand since its
hold-start timestamp `t0`, a frame strictly before the 450 ms hold
duration leaves that hand's published rotation unchanged, while a
frame at or past the hold duration publishes the hand's latest
classified rotation angle. -/
theorem fist_hold_latency (s : DetectorState) (now t0 : ℝ) (h : HandInput)
    (hf : isFist h.landmarks) (hnp : ¬ isPinch h.landmarks) :
    (h.label = "Left" → s.fistHoldStartLeft = some t0 →
      (s.fistActiveLeft = false → now - t0 < HOLD_DURATION_MS →
        (step s now [h]).lastLeftRotation = s.lastLeftRotation) ∧
      (HOLD_DURATION_MS ≤ now - t0 →
        (step s now [h]).lastLeftRotation = calculateHandRotation h.landmarks)) ∧
    (¬ h.label = "Left" → s.fistHoldStartRight = some t0 →
      (s.fistActiveRight = false → now - t0 < HOLD_DURATION_MS →
        (step s now [h]).lastRightRotation = s.lastRightRotation) ∧
      (HOLD_DURATION_MS ≤ now - t0 →
        (step s now [h]).lastRightRotation = calculateHandRotation h.landmarks)) := by
  constructor
  · intro hlab hstart
    have hsc := scanHands_leftFist s h hlab hf hnp
    constructor
    · intro hact hlt
      have h2 : ¬ (HOLD_DURATION_MS ≤ now - t0) := not_le.mpr hlt
      simp [step, getHandRotationAngle, hsc, processLeftFist, processRightFist_false,
        processPinch_false, hstart, hact, h2]
    · intro hge
      cases hact : s.fistActiveLeft <;>
        simp [step, getHandRotationAngle, hsc, processLeftFist, processRightFist_false,
          processPinch_false, hstart, hact, hge]
  · intro hlab hstart
    have hsc := scanHands_rightFist s h hlab hf hnp
    constructor
    · intro hact hlt
      have h2 : ¬ (HOLD_DURATION_MS ≤ now - t0) := not_le.mpr hlt
      simp [step, getHandRotationAngle, hsc, processRightFist, processLeftFist_false,
        processPinch_false, hstart, hact, h2]
    · intro hge
      cases hact : s.fistActiveRight <;>
        simp [step, getHandRotationAngle, hsc, processRightFist, processLeftFist_false,
          processPinch_false, hstart, hact, hge]

/-- Witness for C3: a left fist whose hold started at 0 ms; at 449 ms
the published rotation is still the initial 0, at 451 ms it equals the
hand's classified 90°. -/
theorem fist_hold_latency_witness :
    ({ initialDetector with
        fistHoldStartLeft := some 0 } : DetectorState).fistActiveLeft = false ∧
    (449 : ℝ) - 0 < HOLD_DURATION_MS ∧
    (step { initialDetector with fistHoldStartLeft := some 0 } 449
        [⟨"Left", fistHandLm⟩]).lastLeftRotation =
      ({ initialDetector with
          fistHoldStartLeft := some 0 } : DetectorState).lastLeftRotation ∧
    HOLD_DURATION_MS ≤ (451 : ℝ) - 0 ∧
    (step { initialDetector with fistHoldStartLeft := some 0 } 451
        [⟨"Left", fistHandLm⟩]).lastLeftRotation = calculateHandRotation fistHandLm := by
  have h449 : (449 : ℝ) - 0 < HOLD_DURATION_MS := by
    rw [HOLD_DURATION_MS]; norm_num
  have h451 : HOLD_DURATION_MS ≤ (451 : ℝ) - 0 := by
    rw [HOLD_DURATION_MS]; norm_num
  refine ⟨rfl, h449, ?_, h451, ?_⟩
  · exact ((fist_hold_latency _ 449 0 ⟨"Left", fistHandLm⟩ isFist_fistHandLm
      not_isPinch_fistHandLm).1 rfl rfl).1 rfl h449
  · exact ((fist_hold_latency _ 451 0 ⟨"Left", fistHandLm⟩ isFist_fistHandLm
      not_isPinch_fistHandLm).1 rfl rfl).2 h451

/-- C7: one frame without the raw gesture resets that slot's hold
timer and active flag (for each of the three slots), and on a
re-appearance frame the timer restarts from `now` with the effect
still not live (no rotation published, pinch not active). -/
theorem instant_cancel (s : DetectorState) (now : ℝ) (hands : List HandInput) :
    ((∀ h ∈ hands, ¬((isFist h.landmarks ∧ ¬ isPinch h.landmarks) ∧ h.label = "Left")) →
      (step s now hands).fistHoldStartLeft = none ∧
      (step s now hands).fistActiveLeft = false) ∧
    ((∀ h ∈ hands, ¬((isFist h.landmarks ∧ ¬ isPinch h.landmarks) ∧ ¬ h.label = "Left")) →
      (step s now hands).fistHoldStartRight = none ∧
      (step s now hands).fistActiveRight = false) ∧
    ((∀ h ∈ hands, ¬ isPinch h.landmarks) →
      (step s now hands).pinchHoldStart = none ∧
      (step s now hands).pinchActiveConfirmed = false ∧
      (step s now hands).pinchActive = false) ∧
    (s.fistHoldStartLeft = none → s.fistActiveLeft = false →
      (scanHands s hands).leftFistDetected = true →
      (step s now hands).fistHoldStartLeft = some now ∧
      (step s now hands).fistActiveLeft = false ∧
      (step s now hands).lastLeftRotation = s.lastLeftRotation) ∧
    (s.fistHoldStartRight = none → s.fistActiveRight = false →
      (scanHands s hands).rightFistDetected = true →
      (step s now hands).fistHoldStartRight = some now ∧
      (step s now hands).fistActiveRight = false ∧
      (step s now hands).lastRightRotation = s.lastRightRotation) ∧
    (s.pinchHoldStart = none → (scanHands s hands).pinchDetected = true →
      (step s now hands).pinchHoldStart = some now ∧
      (step s now hands).pinchActiveConfirmed = false ∧
      (step s now hands).pinchActive = false) := by
  refine ⟨?_, ?_, ?_, ?_, ?_, ?_⟩
  · intro H
    have hL : (scanHands s hands).leftFistDetected = false := by
      rw [scanHands]
      exact foldl_leftFistDetected_false hands _ rfl H
    simp only [step, getHandRotationAngle, hL, processLeftFist_false]
    constructor
    · rw [processPinch_fistHoldStartLeft, processRightFist_fistHoldStartLeft]
    · rw [processPinch_fistActiveLeft, processRightFist_fistActiveLeft]
  · intro H
    have hR : (scanHands s hands).rightFistDetected = false := by
      rw [scanHands]
      exact foldl_rightFistDetected_false hands _ rfl H
    simp only [step, getHandRotationAngle, hR, processRightFist_false]
    constructor
    · rw [processPinch_fistHoldStartRight]
    · rw [processPinch_fistActiveRight]
  · intro H
    have hP : (scanHands s hands).pinchDetected = false := by
      rw [scanHands]
      exact foldl_pinchDetected_false hands _ rfl H
    simp only [step, getHandRotationAngle, hP, processPinch_false]
    refine ⟨?_, ?_, ?_⟩ <;> trivial
  · intro hstart hact hdet
    simp only [step, getHandRotationAngle, hdet]
    rw [processLeftFist_rearm]
    · refine ⟨?_, ?_, ?_⟩
      · rw [processPinch_fistHoldStartLeft, processRightFist_fistHoldStartLeft]
      · rw [processPinch_fistActiveLeft, processRightFist_fistActiveLeft]
        exact hact
      · rw [processPinch_lastLeftRotation, processRightFist_lastLeftRotation]
    · exact hstart
    · exact hact
  · intro hstart hact hdet
    simp only [step, getHandRotationAngle, hdet]
    rw [processRightFist_rearm]
    · refine ⟨?_, ?_, ?_⟩
      · rw [processPinch_fistHoldStartRight]
      · rw [processPinch_fistActiveRight, processLeftFist_fistActiveRight]
        exact hact
      · rw [processPinch_lastRightRotation, processLeftFist_lastRightRotation]
    · rw [processLeftFist_fistHoldStartRight]
      exact hstart
    · rw [processLeftFist_fistActiveRight]
      exact hact
  · intro hstart hdet
    simp only [step, getHandRotationAngle, hdet]
    rw [processPinch_rearm]
    · refine ⟨?_, ?_, ?_⟩ <;> trivial
    · rw [processRightFist_pinchHoldStart, processLeftFist_pinchHoldStart]
      exact hstart

/-- Witness for C7: a frame with no hands resets all three slots of a
fully-active detector, and a fresh left fist re-arms the left timer at
the current time with no published effect. -/
theorem instant_cancel_witness :
    ((step { initialDetector with
          fistHoldStartLeft := some 0, fistActiveLeft := true,
          fistHoldStartRight := some 0, fistActiveRight := true,
          pinchHoldStart := some 0, pinchActiveConfirmed := true } 100
        ([] : List HandInput)).fistHoldStartLeft = none ∧
      (step { initialDetector with
          fistHoldStartLeft := some 0, fistActiveLeft := true,
          fistHoldStartRight := some 0, fistActiveRight := true,
          pinchHoldStart := some 0, pinchActiveConfirmed := true } 100
        ([] : List HandInput)).fistActiveLeft = false) ∧
    ((step { initialDetector with
          fistHoldStartLeft := some 0, fistActiveLeft := true,
          fistHoldStartRight := some 0, fistActiveRight := true,
          pinchHoldStart := some 0, pinchActiveConfirmed := true } 100
        ([] : List HandInput)).fistHoldStartRight = none ∧
      (step { initialDetector with
          fistHoldStartLeft := some 0, fistActiveLeft := true,
          fistHoldStartRight := some 0, fistActiveRight := true,
          pinchHoldStart := some 0, pinchActiveConfirmed := true } 100
        ([] : List HandInput)).fistActiveRight = false) ∧
    ((step { initialDetector with
          fistHoldStartLeft := some 0, fistActiveLeft := true,
          fistHoldStartRight := some 0, fistActiveRight := true,
          pinchHoldStart := some 0, pinchActiveConfirmed := true } 100
        ([] : List HandInput)).pinchHoldStart = none ∧
      (step { initialDetector with
          fistHoldStartLeft := some 0, fistActiveLeft := true,
          fistHoldStartRight := some 0, fistActiveRight := true,
          pinchHoldStart := some 0, pinchActiveConfirmed := true } 100
        ([] : List HandInput)).pinchActiveConfirmed = false) ∧
    ((scanHands initialDetector [⟨"Left", fistHandLm⟩]).leftFistDetected = true ∧
      (step initialDetector 100 [⟨"Left", fistHandLm⟩]).fistHoldStartLeft = some 100 ∧
      (step initialDetector 100 [⟨"Left", fistHandLm⟩]).fistActiveLeft = false ∧
      (step initialDetector 100 [⟨"Left", fistHandLm⟩]).lastLeftRotation
        = initialDetector.lastLeftRotation) := by
  have hvL : ∀ h ∈ ([] : List HandInput),
      ¬((isFist h.landmarks ∧ ¬ isPinch h.landmarks) ∧ h.label = "Left") := by
    simp
  have hvR : ∀ h ∈ ([] : List HandInput),
      ¬((isFist h.landmarks ∧ ¬ isPinch h.landmarks) ∧ ¬ h.label = "Left") := by
    simp
  have hvP : ∀ h ∈ ([] : List HandInput), ¬ isPinch h.landmarks := by
    simp
  have hdet : (scanHands initialDetector [⟨"Left", fistHandLm⟩]).leftFistDetected = true := by
    rw [scanHands_leftFist initialDetector ⟨"Left", fistHandLm⟩ rfl isFist_fistHandLm
      not_isPinch_fistHandLm]
  obtain ⟨h4a, h4b, h4c⟩ := (instant_cancel initialDetector 100
    [⟨"Left", fistHandLm⟩]).2.2.2.1 rfl rfl hdet
  exact ⟨(instant_cancel _ 100 []).1 hvL,
    (instant_cancel _ 100 []).2.1 hvR,
    ⟨((instant_cancel _ 100 []).2.2.1 hvP).1, ((instant_cancel _ 100 []).2.2.1 hvP).2.1⟩,
    hdet, h4a, h4b, h4c⟩

end StateMachineClaims
